import Mathlib

/-!
Verification of the longitudinal follow-up engine
(src/longitudinal_processor.py, src/longitudinal_importer.py).

Modelling conventions:
* Calendar dates are modelled by their day ordinal as an integer (`PDate`);
  Python `(d1 - d2).days` becomes integer subtraction, and `min`/`<` on
  dates coincide with the integer operations.  Python `date` objects are
  always truthy, so an `Option PDate` is truthy iff it is `some`.
* Python numeric codes parsed by `float(...)` are modelled as `Rat`;
  `float_of_string` models the builtin `float()` on ordinary decimal
  literals (sign, digits, optional fractional part).  The claims below do
  not depend on the finer behaviour of `float()`.
* Python `or` between optional values follows truthiness: `None` and the
  empty string and `0` are falsy; dates are always truthy.  The helpers
  `pyOrDate`, `pyOrStr`, `pyOrInt` reproduce this.
* Python `sorted(..., key=lambda tp: tp.months)` is a stable sort; it is
  modelled by `List.insertionSort` on the month order, which is stable.
* Fields of the pydantic models that are mere pass-through demographics
  (name, age, gender, group, free text) and are never read by the
  processor are omitted from the embedded records.
-/

namespace Followup

/-- Day-ordinal representation of a Python `datetime.date`. -/
abbrev PDate := Int

/-- Embeds `TimePointData` (longitudinal_models.py): one visit snapshot.
`raw_data` is the overflow map of raw cells, as an association list of
column name to optional cell text. -/
structure TimePointData where
  time_point : String
  months : Int
  visit_date : Option PDate := none
  is_lost_to_followup : Bool := false
  death_date : Option PDate := none
  cardiovascular_event : Option String := none
  event_types : List String := []
  coronary_intervention : Option String := none
  intervention_date : Option PDate := none
  coronary_bypass : Option String := none
  bypass_date : Option PDate := none
  revascularization_treatment : Option String := none
  revascularization_type : Option String := none
  revascularization_date : Option PDate := none
  revascularization_detail : Option String := none
  raw_data : List (String × Option String) := []
deriving Repr, DecidableEq

/-- Embeds `LongitudinalPatientRecord` (longitudinal_models.py).  The
`enrollment_date` field is required (`Field(...)`) in the pydantic model,
hence not optional here. -/
structure LongitudinalPatientRecord where
  patient_id : String
  enrollment_date : PDate
  time_points : List TimePointData := []
  latest_followup_date : Option PDate := none
  latest_followup_months : Option Int := none
  days_to_latest_followup : Option Int := none
deriving Repr, DecidableEq

/-- Value of a list of decimal digit characters. -/
def digits_to_nat (cs : List Char) : Nat :=
  cs.foldl (fun n c => 10 * n + (c.toNat - '0'.toNat)) 0

/-- Models Python `str.strip()`: remove whitespace from both ends. -/
def py_strip (s : String) : String :=
  String.mk (((s.data.dropWhile Char.isWhitespace).reverse.dropWhile Char.isWhitespace).reverse)

/-- Models Python `str.lower()`. -/
def py_lower (s : String) : String := String.mk (s.data.map Char.toLower)

/-- Parses an unsigned decimal literal (digits, optional single dot,
digits) to a rational; models the acceptable core of Python `float()`. -/
def float_of_chars : List Char → Option Rat
  | cs =>
    let intPart := cs.takeWhile (·.isDigit)
    let rest := cs.dropWhile (·.isDigit)
    match rest with
    | [] =>
      if intPart.isEmpty then none
      else some (digits_to_nat intPart)
    | '.' :: frac =>
      if frac.all (·.isDigit) ∧ ¬(intPart.isEmpty ∧ frac.isEmpty) then
        some (digits_to_nat intPart + (digits_to_nat frac : Rat) / (10 ^ frac.length : Rat))
      else none
    | _ => none

/-- Models the Python builtin `float(s)` for plain decimal strings,
returning `none` where `float()` would raise `ValueError`. -/
def float_of_string (s : String) : Option Rat :=
  match s.data with
  | '-' :: rest => (float_of_chars rest).map (fun r => -r)
  | '+' :: rest => float_of_chars rest
  | cs => float_of_chars cs

/-- Embeds `LongitudinalEventProcessor._try_parse_code`: convert a raw
value to a numeric code, or `none` when missing/blank/unparseable. -/
def try_parse_code (value : Option String) : Option Rat :=
  match value with
  | none => none
  | some v =>
    let s := py_strip v
    if s ≠ "" ∧ py_lower s ≠ "nan" ∧ py_lower s ≠ "none" then float_of_string s
    else none

/-- Embeds `LongitudinalEventProcessor.ADVERSE_EVENT_TYPE_CODES`
(longitudinal_processor.py, legacy adverse-event code table). -/
def ADVERSE_EVENT_TYPE_CODES (code : Rat) : Option String :=
  if code = 1 then some "cardiac_death"
  else if code = 2 then some "nonfatal_mi"
  else if code = 3 then some "target_vessel_revascularization"
  else if code = 4 then some "heart_failure"
  else if code = 5 then some "angina"
  else if code = 6 then some "cardiac_hospitalization"
  else none

/-- Embeds `LongitudinalDataImporter.EVENT_TYPE_CODES`
(longitudinal_importer.py, decoded event-code table). -/
def EVENT_TYPE_CODES (code : String) : Option String :=
  if code = "1" then some "death"
  else if code = "2" then some "mi"
  else if code = "3" then some "revascularization"
  else if code = "4" then some "heart_failure"
  else if code = "5" then some "angina"
  else if code = "6" then some "hospitalization"
  else none

/-- Embeds `LongitudinalDataImporter._parse_event_codes`: split a raw
comma-separated code value and map each token through the code table,
silently dropping unrecognized tokens. -/
def parse_event_codes (value : Option String) : List String :=
  match value with
  | none => []
  | some raw =>
    let code_str := py_strip raw
    if code_str = "" then []
    else ((code_str.splitOn ",").map py_strip).filterMap EVENT_TYPE_CODES

/-- Embeds the key scan of `_get_adverse_event_code`: first listed key
present in `raw_data` with a non-`None` value decides the result. -/
def adverse_code_from_keys (raw : List (String × Option String)) : List String → Option Rat
  | [] => none
  | k :: ks =>
    match raw.lookup k with
    | some (some v) => try_parse_code (some v)
    | some none => adverse_code_from_keys raw ks
    | none => adverse_code_from_keys raw ks

/-- Candidate raw-field names for the specific adverse-event code
(`_get_adverse_event_code`). -/
def possible_adverse_keys : List String :=
  ["如有不良事件，何事件1", "如有不良事件，何事件", "adverse_event_type"]

/-- Embeds `LongitudinalEventProcessor._get_adverse_event_code`. -/
def get_adverse_event_code (tp : TimePointData) : Option Rat :=
  adverse_code_from_keys tp.raw_data possible_adverse_keys

/-- Embeds `LongitudinalEventProcessor._identify_all_events`: all events
recognized at one time point, as (category, date) pairs. -/
def identify_all_events (tp : TimePointData) : List (String × PDate) :=
  match tp.death_date with
  | some dd => [("death", dd)]
  | none =>
    let step2 : List (String × PDate) :=
      match tp.visit_date with
      | some vd => if tp.event_types.isEmpty then [] else tp.event_types.map (fun t => (t, vd))
      | none => []
    let step3 : List (String × PDate) :=
      if step2.isEmpty then
        match try_parse_code tp.cardiovascular_event with
        | some cv =>
          if cv = 1 then
            match get_adverse_event_code tp with
            | some code =>
              match ADVERSE_EVENT_TYPE_CODES code, tp.visit_date with
              | some name, some vd => [(name, vd)]
              | _, _ => []
            | none =>
              match tp.visit_date with
              | some vd => [("cardiovascular_event", vd)]
              | none => []
          else []
        | none => []
      else []
    let step4 : List (String × PDate) :=
      match tp.coronary_bypass with
      | none => []
      | some _ =>
        if try_parse_code tp.coronary_bypass = some 1 then
          match tp.bypass_date with
          | some bd => [("coronary_bypass", bd)]
          | none =>
            match tp.visit_date with
            | some vd => [("coronary_bypass", vd)]
            | none => []
        else []
    let step5 : List (String × PDate) :=
      match tp.coronary_intervention with
      | none => []
      | some _ =>
        if try_parse_code tp.coronary_intervention = some 1 then
          match tp.intervention_date with
          | some idate => [("coronary_intervention", idate)]
          | none =>
            match tp.visit_date with
            | some vd => [("coronary_intervention", vd)]
            | none => []
        else []
    step2 ++ step3 ++ step4 ++ step5

/-- One per-category slot of the first-occurrence tracking dict
(`event_tracking` in `process_followup`). -/
structure EventSlot where
  date : Option PDate := none
  time_point : Option String := none
  days : Option Int := none
deriving Repr, DecidableEq

/-- Embeds the `event_tracking` dict of `process_followup`: one slot per
tracked category, in dict insertion order. -/
structure EventTracking where
  death : EventSlot := {}
  cardiac_death : EventSlot := {}
  mi : EventSlot := {}
  nonfatal_mi : EventSlot := {}
  angina : EventSlot := {}
  heart_failure : EventSlot := {}
  revascularization : EventSlot := {}
  target_vessel_revascularization : EventSlot := {}
  hospitalization : EventSlot := {}
  cardiac_hospitalization : EventSlot := {}
deriving Repr, DecidableEq

/-- Dict membership test plus lookup: `event_tracking[event_type]` when
`event_type in event_tracking`, else `none`. -/
def EventTracking.get? (et : EventTracking) (key : String) : Option EventSlot :=
  if key = "death" then some et.death
  else if key = "cardiac_death" then some et.cardiac_death
  else if key = "mi" then some et.mi
  else if key = "nonfatal_mi" then some et.nonfatal_mi
  else if key = "angina" then some et.angina
  else if key = "heart_failure" then some et.heart_failure
  else if key = "revascularization" then some et.revascularization
  else if key = "target_vessel_revascularization" then some et.target_vessel_revascularization
  else if key = "hospitalization" then some et.hospitalization
  else if key = "cardiac_hospitalization" then some et.cardiac_hospitalization
  else none

/-- Dict update `event_tracking[key] = slot` (no-op on unknown keys,
which the source guards against with a membership test). -/
def EventTracking.set (et : EventTracking) (key : String) (slot : EventSlot) : EventTracking :=
  if key = "death" then { et with death := slot }
  else if key = "cardiac_death" then { et with cardiac_death := slot }
  else if key = "mi" then { et with mi := slot }
  else if key = "nonfatal_mi" then { et with nonfatal_mi := slot }
  else if key = "angina" then { et with angina := slot }
  else if key = "heart_failure" then { et with heart_failure := slot }
  else if key = "revascularization" then { et with revascularization := slot }
  else if key = "target_vessel_revascularization" then { et with target_vessel_revascularization := slot }
  else if key = "hospitalization" then { et with hospitalization := slot }
  else if key = "cardiac_hospitalization" then { et with cardiac_hospitalization := slot }
  else et

/-- All slots in dict insertion order, as used by `event_tracking.values()`. -/
def EventTracking.slots (et : EventTracking) : List EventSlot :=
  [et.death, et.cardiac_death, et.mi, et.nonfatal_mi, et.angina, et.heart_failure,
   et.revascularization, et.target_vessel_revascularization, et.hospitalization,
   et.cardiac_hospitalization]

/-- Running overall-first-event variables of `process_followup`. -/
structure FirstEventState where
  first_event_type : Option String := none
  first_event_time_point : Option String := none
  first_event_date : Option PDate := none
  first_event_months : Option Int := none
deriving Repr, DecidableEq

/-- Body of the inner event loop of `process_followup`: update the
per-category first occurrence and the overall first event with one
emitted `(event_type, event_date)` pair. -/
def process_event (enrollment_date : PDate) (tp : TimePointData)
    (st : FirstEventState × EventTracking) (ev : String × PDate) :
    FirstEventState × EventTracking :=
  let fe := st.1
  let et := st.2
  let event_type := ev.1
  let event_date := ev.2
  if event_type = "" then st
  else
    let days_to_event : Option Int := some (event_date - enrollment_date)
    let et :=
      match et.get? event_type with
      | some slot =>
        if slot.date = none then
          et.set event_type
            { date := some event_date, time_point := some tp.time_point, days := days_to_event }
        else et
      | none => et
    let fe :=
      if (match fe.first_event_date with
          | none => true
          | some cur => decide (event_date < cur)) then
        { first_event_type := some event_type
          first_event_time_point := some tp.time_point
          first_event_date := some event_date
          first_event_months := some tp.months }
      else fe
    (fe, et)

/-- Slot of the `coronary_tracking` dict for plain procedure categories. -/
structure CoronarySlot where
  date : Option PDate := none
  time_point : Option String := none
  has : Bool := false
deriving Repr, DecidableEq

/-- Slot of the `coronary_tracking` dict for the revascularization
treatment entry, which also records type and detail text. -/
structure RevascTreatSlot where
  date : Option PDate := none
  time_point : Option String := none
  has : Bool := false
  type : Option String := none
  detail : Option String := none
deriving Repr, DecidableEq

/-- Embeds the `coronary_tracking` dict of `process_followup`. -/
structure CoronaryTracking where
  coronary_ct : CoronarySlot := {}
  coronary_angiography : CoronarySlot := {}
  coronary_intervention : CoronarySlot := {}
  coronary_bypass : CoronarySlot := {}
  revascularization_treatment : RevascTreatSlot := {}
deriving Repr, DecidableEq

/-- Substring test on character lists; models the Python `in` operator on
strings. -/
def containsSub (needle : List Char) : List Char → Bool
  | [] => needle.isEmpty
  | c :: rest => needle.isPrefixOf (c :: rest) || containsSub needle rest

/-- Models `needle in hay` for Python strings. -/
def str_contains (needle hay : String) : Bool := containsSub needle.data hay.data

/-- Embeds `LongitudinalEventProcessor._track_coronary_procedures`. -/
def track_coronary_procedures (tp : TimePointData) (tracking : CoronaryTracking) :
    CoronaryTracking :=
  match tp.visit_date with
  | none => tracking
  | some visit_date =>
    let tracking :=
      match tp.coronary_intervention with
      | none => tracking
      | some _ =>
        if try_parse_code tp.coronary_intervention = some 1 then
          let d := match tp.intervention_date with
            | some i => i
            | none => visit_date
          let tracking :=
            if tracking.coronary_intervention.has = false then
              { tracking with coronary_intervention :=
                { has := true, date := some d, time_point := some tp.time_point } }
            else tracking
          if tracking.coronary_angiography.has = false then
            { tracking with coronary_angiography :=
              { has := true, date := some d, time_point := some tp.time_point } }
          else tracking
        else tracking
    let tracking :=
      match tp.coronary_bypass with
      | none => tracking
      | some _ =>
        if try_parse_code tp.coronary_bypass = some 1 then
          if tracking.coronary_bypass.has = false then
            let d := match tp.bypass_date with
              | some b => b
              | none => visit_date
            { tracking with coronary_bypass :=
              { has := true, date := some d, time_point := some tp.time_point } }
          else tracking
        else tracking
    let tracking :=
      match tp.revascularization_treatment with
      | none => tracking
      | some _ =>
        if try_parse_code tp.revascularization_treatment = some 1 then
          if tracking.revascularization_treatment.has = false then
            let d := match tp.revascularization_date with
              | some r => r
              | none => visit_date
            { tracking with revascularization_treatment :=
              { has := true, date := some d, time_point := some tp.time_point,
                type := tp.revascularization_type, detail := tp.revascularization_detail } }
          else tracking
        else tracking
    let ct_keys := tp.raw_data.filter
      (fun kv => str_contains "CT" kv.1 || str_contains "ct" (py_lower kv.1))
    match ct_keys.find? (fun kv => try_parse_code kv.2 = some 1) with
    | some _ =>
      if tracking.coronary_ct.has = false then
        { tracking with coronary_ct :=
          { has := true, date := some visit_date, time_point := some tp.time_point } }
      else tracking
    | none => tracking

/-- Embeds the main accumulation loop of `process_followup`: sort the
time points by month offset, extract the events of each time point in
order, and fold them into the first-occurrence and coronary tracking. -/
def fold_time_points (pr : LongitudinalPatientRecord) :
    FirstEventState × EventTracking × CoronaryTracking :=
  let sorted_time_points := pr.time_points.insertionSort (fun a b => a.months ≤ b.months)
  sorted_time_points.foldl
    (fun acc tp =>
      let st := (identify_all_events tp).foldl (process_event pr.enrollment_date tp) (acc.1, acc.2.1)
      (st.1, st.2, track_coronary_procedures tp acc.2.2))
    ({}, {}, {})

/-- Minimum of a Python list of dates (`min(dates)`), `none` on empty. -/
def min_date : List PDate → Option PDate
  | [] => none
  | d :: ds => some (ds.foldl min d)

/-- The `mace_dates` list built by the `mace` branch of
`_calculate_endpoint_outcome`. -/
def mace_dates (event_tracking : EventTracking) : List PDate :=
  (match event_tracking.death.date with | some d => [d] | none => []) ++
  (match event_tracking.cardiac_death.date with | some d => [d] | none => []) ++
  (match event_tracking.nonfatal_mi.date with | some d => [d] | none => []) ++
  (match event_tracking.target_vessel_revascularization.date with | some d => [d] | none => [])

/-- The `all_dates` list built by the `any_event` branch of
`_calculate_endpoint_outcome`: all recorded first-occurrence dates. -/
def all_event_dates (event_tracking : EventTracking) : List PDate :=
  event_tracking.slots.filterMap (fun v => v.date)

/-- Embeds `LongitudinalEventProcessor._calculate_endpoint_outcome`:
returns (occurred, survival days, endpoint description). -/
def calculate_endpoint_outcome (endpoint : String) (event_tracking : EventTracking)
    (enrollment_date : PDate) (latest_date : Option PDate) : Bool × Int × String :=
  let r : Bool × Option PDate × String :=
    if endpoint = "death" then
      match event_tracking.death.date with
      | some d => (true, some d, endpoint)
      | none =>
        match event_tracking.cardiac_death.date with
        | some d => (true, some d, endpoint)
        | none => (false, none, endpoint)
    else if endpoint = "mace" then
      match min_date (mace_dates event_tracking) with
      | some d => (true, some d, "mace")
      | none => (false, none, endpoint)
    else if endpoint = "mi" then
      match event_tracking.nonfatal_mi.date with
      | some d => (true, some d, endpoint)
      | none => (false, none, endpoint)
    else if endpoint = "angina" then
      match event_tracking.angina.date with
      | some d => (true, some d, endpoint)
      | none => (false, none, endpoint)
    else if endpoint = "heart_failure" then
      match event_tracking.heart_failure.date with
      | some d => (true, some d, endpoint)
      | none => (false, none, endpoint)
    else if endpoint = "revascularization" then
      match event_tracking.target_vessel_revascularization.date with
      | some d => (true, some d, endpoint)
      | none => (false, none, endpoint)
    else if endpoint = "hospitalization" then
      match event_tracking.cardiac_hospitalization.date with
      | some d => (true, some d, endpoint)
      | none => (false, none, endpoint)
    else if endpoint = "any_event" then
      match min_date (all_event_dates event_tracking) with
      | some d => (true, some d, "any_event")
      | none => (false, none, endpoint)
    else (false, none, endpoint)
  let survival_days : Int :=
    match r.1, r.2.1 with
    | true, some ed => ed - enrollment_date
    | _, _ =>
      match latest_date with
      | some l => l - enrollment_date
      | none => 0
  (r.1, survival_days, r.2.2)

/-- Python `a or b` on optional dates (date objects are always truthy). -/
def pyOrDate (a b : Option PDate) : Option PDate :=
  match a with
  | some d => some d
  | none => b

/-- Python `a or b` on optional strings (the empty string is falsy). -/
def pyOrStr (a b : Option String) : Option String :=
  match a with
  | some s => if s = "" then b else some s
  | none => b

/-- Python `a or b` on optional ints (zero is falsy). -/
def pyOrInt (a b : Option Int) : Option Int :=
  match a with
  | some n => if n = 0 then b else some n
  | none => b

/-- Loop of `_determine_followup_status` over the time points, with its
early return on the first lost-to-follow-up flag. -/
def any_lost : List TimePointData → Bool
  | [] => false
  | tp :: rest => if tp.is_lost_to_followup then true else any_lost rest

/-- Embeds `LongitudinalEventProcessor._determine_followup_status`. -/
def determine_followup_status (pr : LongitudinalPatientRecord) : String :=
  if pr.time_points.isEmpty then "no_data"
  else if any_lost pr.time_points then "lost_to_followup"
  else
    match pr.latest_followup_months with
    | some m =>
      if m ≥ 60 then "complete"
      else if m ≥ 12 then "adequate"
      else "incomplete"
    | none => "unknown"

/-- Embeds `LongitudinalFollowupRecord` (longitudinal_models.py),
restricted to the fields the processor computes. -/
structure LongitudinalFollowupRecord where
  patient_id : String
  enrollment_date : PDate
  latest_followup_date : Option PDate
  latest_followup_months : Option Int
  days_to_latest_followup : Option Int
  first_event_type : Option String
  first_event_date : Option PDate
  first_event_time_point : Option String
  first_event_months : Option Int
  days_to_first_event : Option Int
  first_death_date : Option PDate
  first_death_time_point : Option String
  days_to_first_death : Option Int
  first_mi_date : Option PDate
  first_mi_time_point : Option String
  days_to_first_mi : Option Int
  first_angina_date : Option PDate
  first_angina_time_point : Option String
  days_to_first_angina : Option Int
  first_heart_failure_date : Option PDate
  first_heart_failure_time_point : Option String
  days_to_first_heart_failure : Option Int
  first_revascularization_date : Option PDate
  first_revascularization_time_point : Option String
  days_to_first_revascularization : Option Int
  first_hospitalization_date : Option PDate
  first_hospitalization_time_point : Option String
  days_to_first_hospitalization : Option Int
  has_coronary_ct : Bool
  first_coronary_ct_date : Option PDate
  first_coronary_ct_time_point : Option String
  has_coronary_angiography : Bool
  first_coronary_angiography_date : Option PDate
  first_coronary_angiography_time_point : Option String
  has_coronary_intervention : Bool
  first_coronary_intervention_date : Option PDate
  first_coronary_intervention_time_point : Option String
  has_coronary_bypass : Bool
  first_coronary_bypass_date : Option PDate
  first_coronary_bypass_time_point : Option String
  has_revascularization_treatment : Bool
  first_revascularization_treatment_date : Option PDate
  first_revascularization_treatment_time_point : Option String
  first_revascularization_treatment_type : Option String
  first_revascularization_treatment_detail : Option String
  event_occurred : Bool
  survival_time_days : Int
  endpoint_event : String
  total_followup_status : String
deriving Repr, DecidableEq

/-- Embeds `LongitudinalEventProcessor.process_followup` for a processor
constructed with the given endpoint selector. -/
def process_followup (endpoint : String) (pr : LongitudinalPatientRecord) :
    LongitudinalFollowupRecord :=
  let folded := fold_time_points pr
  let fe := folded.1
  let et := folded.2.1
  let ct := folded.2.2
  let days_to_first_event : Option Int :=
    fe.first_event_date.map (fun d => d - pr.enrollment_date)
  let outcome := calculate_endpoint_outcome endpoint et pr.enrollment_date pr.latest_followup_date
  { patient_id := pr.patient_id
    enrollment_date := pr.enrollment_date
    latest_followup_date := pr.latest_followup_date
    latest_followup_months := pr.latest_followup_months
    days_to_latest_followup := pr.days_to_latest_followup
    first_event_type := fe.first_event_type
    first_event_date := fe.first_event_date
    first_event_time_point := fe.first_event_time_point
    first_event_months := fe.first_event_months
    days_to_first_event := days_to_first_event
    first_death_date := pyOrDate et.death.date et.cardiac_death.date
    first_death_time_point := pyOrStr et.death.time_point et.cardiac_death.time_point
    days_to_first_death := pyOrInt et.death.days et.cardiac_death.days
    first_mi_date := pyOrDate et.mi.date et.nonfatal_mi.date
    first_mi_time_point := pyOrStr et.mi.time_point et.nonfatal_mi.time_point
    days_to_first_mi := pyOrInt et.mi.days et.nonfatal_mi.days
    first_angina_date := et.angina.date
    first_angina_time_point := et.angina.time_point
    days_to_first_angina := et.angina.days
    first_heart_failure_date := et.heart_failure.date
    first_heart_failure_time_point := et.heart_failure.time_point
    days_to_first_heart_failure := et.heart_failure.days
    first_revascularization_date := pyOrDate et.revascularization.date et.target_vessel_revascularization.date
    first_revascularization_time_point := pyOrStr et.revascularization.time_point et.target_vessel_revascularization.time_point
    days_to_first_revascularization := pyOrInt et.revascularization.days et.target_vessel_revascularization.days
    first_hospitalization_date := pyOrDate et.hospitalization.date et.cardiac_hospitalization.date
    first_hospitalization_time_point := pyOrStr et.hospitalization.time_point et.cardiac_hospitalization.time_point
    days_to_first_hospitalization := pyOrInt et.hospitalization.days et.cardiac_hospitalization.days
    has_coronary_ct := ct.coronary_ct.has
    first_coronary_ct_date := ct.coronary_ct.date
    first_coronary_ct_time_point := ct.coronary_ct.time_point
    has_coronary_angiography := ct.coronary_angiography.has
    first_coronary_angiography_date := ct.coronary_angiography.date
    first_coronary_angiography_time_point := ct.coronary_angiography.time_point
    has_coronary_intervention := ct.coronary_intervention.has
    first_coronary_intervention_date := ct.coronary_intervention.date
    first_coronary_intervention_time_point := ct.coronary_intervention.time_point
    has_coronary_bypass := ct.coronary_bypass.has
    first_coronary_bypass_date := ct.coronary_bypass.date
    first_coronary_bypass_time_point := ct.coronary_bypass.time_point
    has_revascularization_treatment := ct.revascularization_treatment.has
    first_revascularization_treatment_date := ct.revascularization_treatment.date
    first_revascularization_treatment_time_point := ct.revascularization_treatment.time_point
    first_revascularization_treatment_type := ct.revascularization_treatment.type
    first_revascularization_treatment_detail := ct.revascularization_treatment.detail
    event_occurred := outcome.1
    survival_time_days := outcome.2.1
    endpoint_event := outcome.2.2
    total_followup_status := determine_followup_status pr }

/-- Embeds `LongitudinalEventProcessor.process_batch`; the per-subject
try/except is modelled by an `Except`-valued processing function. -/
def process_batch (process : LongitudinalPatientRecord → Except String LongitudinalFollowupRecord)
    (patient_records : List LongitudinalPatientRecord) : List LongitudinalFollowupRecord :=
  patient_records.foldl
    (fun followup_records pr =>
      match process pr with
      | .ok record => followup_records ++ [record]
      | .error _ => followup_records)
    []

/-- Embeds `LongitudinalDataImporter._calculate_latest_followup`: scan
the month-sorted time points from the back for the first non-null visit
date. -/
def calculate_latest_followup (record : LongitudinalPatientRecord) :
    LongitudinalPatientRecord :=
  if record.time_points.isEmpty then record
  else
    let sorted_time_points := record.time_points.insertionSort (fun a b => a.months ≤ b.months)
    match sorted_time_points.reverse.find? (fun tp => tp.visit_date.isSome) with
    | some tp =>
      { record with
        latest_followup_date := tp.visit_date
        latest_followup_months := some tp.months
        days_to_latest_followup := tp.visit_date.map (fun vd => vd - record.enrollment_date) }
    | none => record

/-- Abstraction of one sheet row for one patient: the parse result of
its enrollment column (legacy fallback) and the time-point payload of
`_extract_time_point_data`. -/
structure SheetRowData where
  enrollment_field : Option PDate
  tp_data : TimePointData
deriving Repr, DecidableEq

/-- One sheet as seen by `_create_longitudinal_record` for one patient:
the recognized (label, months) of the sheet name, and the patient row. -/
structure PatientSheet where
  time_point_info : Option (String × Int)
  patient_row : Option SheetRowData
deriving Repr, DecidableEq

/-- Per-patient import input: baseline enrollment parse plus the sheets. -/
structure PatientInput where
  patient_id : String
  baseline_enrollment : Option PDate
  sheets : List PatientSheet
deriving Repr, DecidableEq

/-- Embeds the sheet loop of `_create_longitudinal_record`: resolve the
enrollment date (baseline first, then the first sheet row carrying one)
and collect the time points. -/
def collect_time_points (baseline : Option PDate) (sheets : List PatientSheet) :
    Option PDate × List TimePointData :=
  sheets.foldl
    (fun acc s =>
      match s.time_point_info with
      | none => acc
      | some info =>
        match s.patient_row with
        | none => acc
        | some row =>
          let enroll := match acc.1 with
            | none => row.enrollment_field
            | some e => some e
          (enroll, acc.2 ++ [{ row.tp_data with time_point := info.1, months := info.2 }]))
    (baseline, [])

/-- Embeds `LongitudinalDataImporter._create_longitudinal_record`:
returns `none` when no enrollment date is resolvable. -/
def create_longitudinal_record (pid : String) (baseline : Option PDate)
    (sheets : List PatientSheet) : Option LongitudinalPatientRecord :=
  let collected := collect_time_points baseline sheets
  match collected.1 with
  | none => none
  | some e =>
    some (calculate_latest_followup
      { patient_id := pid, enrollment_date := e, time_points := collected.2 })

/-- Embeds the patient loop of
`LongitudinalDataImporter.import_longitudinal_data`, which skips
patients whose record cannot be created. -/
def import_longitudinal_data (patients : List PatientInput) :
    List LongitudinalPatientRecord :=
  patients.foldl
    (fun acc p =>
      match create_longitudinal_record p.patient_id p.baseline_enrollment p.sheets with
      | some record => acc ++ [record]
      | none => acc)
    []

/-- Python exception classes relevant to `_parse_date`: the two caught
classes and a stand-in for any other exception. -/
inductive PyErr where
  | valueError
  | overflowError
  | other
deriving Repr, DecidableEq

/-- Input values `_parse_date` may receive: missing/NaN cells, date and
datetime objects, strings, numbers (with the possibly-raising result of
the `int(value)` conversion), and anything else. -/
inductive PyValue where
  | vNone
  | vNaN
  | vDate (d : PDate)
  | vDateTime (d : PDate)
  | vStr (s : String)
  | vNum (toInt : Except PyErr Int)
  | vOther

/-- A number value is well formed when its `int(value)` conversion can
only raise `ValueError` or `OverflowError`, as for Python ints/floats. -/
def PyValue.wf : PyValue → Prop
  | .vNum toInt => toInt ≠ .error .other
  | _ => True

/-- The six string formats `_parse_date` tries, in order. -/
def date_formats : List String :=
  ["%Y-%m-%d", "%Y/%m/%d", "%d-%m-%Y", "%d/%m/%Y", "%Y%m%d", "%m/%d/%Y"]

/-- Format loop of `_parse_date`: try each format, catching only
`ValueError` from `strptime` and moving on. -/
def try_date_formats (strptime : String → String → Except PyErr PDate) (value : String) :
    List String → Except PyErr (Option PDate)
  | [] => .ok none
  | fmt :: rest =>
    match strptime value fmt with
    | .ok d => .ok (some d)
    | .error .valueError => try_date_formats strptime value rest
    | .error e => .error e

/-- Embeds `LongitudinalDataImporter._parse_date` over abstract library
primitives: `strptime value fmt` parses a string, `excel_date k` models
`date(1900, 1, 1) + timedelta(days = k)`; both may raise.  The result is
`.ok` with the parsed date or `none` for absent, or `.error` if an
exception escapes. -/
def parse_date (strptime : String → String → Except PyErr PDate)
    (excel_date : Int → Except PyErr PDate) : PyValue → Except PyErr (Option PDate)
  | .vNone => .ok none
  | .vNaN => .ok none
  | .vDate d => .ok (some d)
  | .vDateTime d => .ok (some d)
  | .vStr s =>
    let value := py_strip s
    if value = "" then .ok none
    else try_date_formats strptime value date_formats
  | .vNum toInt =>
    match toInt >>= (fun n => excel_date (n - 2)) with
    | .ok d => .ok (some d)
    | .error .valueError => .ok none
    | .error .overflowError => .ok none
    | .error .other => .error .other
  | .vOther => .ok none

/-! ### C7: follow-up status classification -/

/-- The early-return loop over lost-to-follow-up flags equals a list any. -/
theorem any_lost_eq_any (l : List TimePointData) :
    any_lost l = l.any (fun tp => tp.is_lost_to_followup) := by
  induction l with
  | nil => rfl
  | cons tp rest ih => by_cases h : tp.is_lost_to_followup <;> simp [any_lost, h, ih]

/-- C7: the status is no_data without time points; lost_to_followup when
any time point is flagged lost (taking priority over the thresholds);
otherwise complete / adequate / incomplete by the latest-follow-up month
offset (at least 60 / at least 12 / below 12), and unknown when that
offset is missing. -/
theorem c7_followup_status (pr : LongitudinalPatientRecord) :
    (pr.time_points = [] → determine_followup_status pr = "no_data")
    ∧ (∀ tp ∈ pr.time_points, tp.is_lost_to_followup = true →
        determine_followup_status pr = "lost_to_followup")
    ∧ ((∀ tp ∈ pr.time_points, tp.is_lost_to_followup = false) → pr.time_points ≠ [] →
        (∀ m, pr.latest_followup_months = some m →
          ((60 ≤ m → determine_followup_status pr = "complete")
            ∧ (12 ≤ m → m < 60 → determine_followup_status pr = "adequate")
            ∧ (m < 12 → determine_followup_status pr = "incomplete")))
        ∧ (pr.latest_followup_months = none → determine_followup_status pr = "unknown")) := by
  refine ⟨?_, ?_, ?_⟩
  · intro h
    simp [determine_followup_status, h]
  · intro tp hmem hlost
    have hne : pr.time_points.isEmpty = false := by
      cases hl : pr.time_points with
      | nil => rw [hl] at hmem; cases hmem
      | cons a l => rfl
    have hany : any_lost pr.time_points = true := by
      rw [any_lost_eq_any]
      exact List.any_eq_true.2 ⟨tp, hmem, hlost⟩
    simp [determine_followup_status, hne, hany]
  · intro hnolost hne
    have hne' : pr.time_points.isEmpty = false := by
      cases hl : pr.time_points with
      | nil => exact absurd hl hne
      | cons a l => rfl
    have hany : any_lost pr.time_points = false := by
      rw [any_lost_eq_any]
      simp only [List.any_eq_false]
      intro tp hmem
      simp [hnolost tp hmem]
    constructor
    · intro m hm
      refine ⟨?_, ?_, ?_⟩
      · intro h60
        simp [determine_followup_status, hne', hany, hm, h60]
      · intro h12 hlt
        simp [determine_followup_status, hne', hany, hm, h12, not_le.2 hlt]
      · intro hlt
        simp [determine_followup_status, hne', hany, hm, not_le.2 hlt,
          not_le.2 (lt_of_lt_of_le hlt (by norm_num : (12 : Int) ≤ 60))]
    · intro hm
      simp [determine_followup_status, hne', hany, hm]

/-- Witness for C7: a record with a lost-to-follow-up flag at month 3
and another with a month-61 latest follow-up. -/
def c7_wrecord : LongitudinalPatientRecord :=
  { patient_id := "W7", enrollment_date := 0,
    time_points := [{ time_point := "m3", months := 3, is_lost_to_followup := true },
                    { time_point := "m61", months := 61, visit_date := some 1900 }],
    latest_followup_date := some 1900, latest_followup_months := some 61,
    days_to_latest_followup := some 1900 }

/-- Witness for C7: the lost flag wins over the month-61 threshold. -/
theorem c7_followup_status_witness :
    ({ time_point := "m3", months := 3, is_lost_to_followup := true } : TimePointData)
        ∈ c7_wrecord.time_points
    ∧ determine_followup_status c7_wrecord = "lost_to_followup" :=
  ⟨by decide, (c7_followup_status c7_wrecord).2.1
    { time_point := "m3", months := 3, is_lost_to_followup := true } (by decide) (by decide)⟩

/-! ### Helper lemmas about minima of date lists -/

/-- A lower bound of the accumulator and of a list bounds the folded minimum. -/
theorem foldl_min_le {b : PDate} (ds : List PDate) (acc : PDate) (hacc : b ≤ acc)
    (h : ∀ x ∈ ds, b ≤ x) : b ≤ ds.foldl min acc := by
  induction ds generalizing acc with
  | nil => exact hacc
  | cons x rest ih =>
    exact ih (min acc x) (le_min hacc (h x (by simp))) (fun y hy => h y (by simp [hy]))

/-- A common lower bound of a list also bounds its Python minimum. -/
theorem min_date_le (b : PDate) (l : List PDate) (d : PDate)
    (hmin : min_date l = some d) (h : ∀ x ∈ l, b ≤ x) : b ≤ d := by
  cases l with
  | nil => simp [min_date] at hmin
  | cons x rest =>
    simp only [min_date, Option.some.injEq] at hmin
    subst hmin
    exact foldl_min_le rest x (h x (by simp)) (fun y hy => h y (by simp [hy]))

/-- The folded minimum is either the accumulator or a list element. -/
theorem foldl_min_mem (ds : List PDate) (acc : PDate) :
    ds.foldl min acc = acc ∨ ds.foldl min acc ∈ ds := by
  induction ds generalizing acc with
  | nil => simp
  | cons x rest ih =>
    rcases ih (min acc x) with h | h
    · rcases min_choice acc x with hm | hm
      · left; simp only [List.foldl_cons]; rw [h, hm]
      · right; simp only [List.foldl_cons]; rw [h, hm]; exact List.mem_cons_self x rest
    · right; exact List.mem_cons_of_mem x h

/-- The Python minimum of a list is a member of the list. -/
theorem min_date_mem (l : List PDate) (d : PDate) (hmin : min_date l = some d) : d ∈ l := by
  cases l with
  | nil => simp [min_date] at hmin
  | cons x rest =>
    simp only [min_date, Option.some.injEq] at hmin
    subst hmin
    rcases foldl_min_mem rest x with h | h
    · rw [h]; exact List.mem_cons_self x rest
    · exact List.mem_cons_of_mem x h

/-- A recorded slot date is among the dates of `all_event_dates`. -/
theorem slot_date_mem_all (et : EventTracking) (s : EventSlot) (d : PDate)
    (hs : s ∈ et.slots) (hd : s.date = some d) : d ∈ all_event_dates et :=
  List.mem_filterMap.2 ⟨s, hs, hd⟩

/-- Every date of the mace candidate list is a recorded slot date. -/
theorem mem_all_of_mem_mace (et : EventTracking) (d : PDate) (h : d ∈ mace_dates et) :
    d ∈ all_event_dates et := by
  unfold mace_dates at h
  simp only [List.mem_append] at h
  rcases h with ((h | h) | h) | h
  · rcases hd : et.death.date with _ | x <;> rw [hd] at h <;> simp at h
    exact h ▸ slot_date_mem_all et et.death x (by simp [EventTracking.slots]) hd
  · rcases hd : et.cardiac_death.date with _ | x <;> rw [hd] at h <;> simp at h
    exact h ▸ slot_date_mem_all et et.cardiac_death x (by simp [EventTracking.slots]) hd
  · rcases hd : et.nonfatal_mi.date with _ | x <;> rw [hd] at h <;> simp at h
    exact h ▸ slot_date_mem_all et et.nonfatal_mi x (by simp [EventTracking.slots]) hd
  · rcases hd : et.target_vessel_revascularization.date with _ | x <;> rw [hd] at h <;> simp at h
    exact h ▸ slot_date_mem_all et et.target_vessel_revascularization x
      (by simp [EventTracking.slots]) hd

/-- Case analysis of `calculate_endpoint_outcome`: either the endpoint
did not occur and the survival time is the censoring time, or it
occurred and the survival time is a recorded slot date minus the
enrollment date. -/
theorem calculate_endpoint_cases (endpoint : String) (et : EventTracking)
    (e : PDate) (latest : Option PDate) :
    ((calculate_endpoint_outcome endpoint et e latest).1 = false
      ∧ (calculate_endpoint_outcome endpoint et e latest).2.1
          = (match latest with | some l => l - e | none => 0))
    ∨ (∃ d, d ∈ all_event_dates et
        ∧ (calculate_endpoint_outcome endpoint et e latest).1 = true
        ∧ (calculate_endpoint_outcome endpoint et e latest).2.1 = d - e) := by
  by_cases h1 : endpoint = "death"
  · rcases hd : et.death.date with _ | d1
    · rcases hcd : et.cardiac_death.date with _ | d2
      · left
        constructor <;> simp [calculate_endpoint_outcome, h1, hd, hcd]
      · right
        exact ⟨d2, slot_date_mem_all et et.cardiac_death d2 (by simp [EventTracking.slots]) hcd,
          by simp [calculate_endpoint_outcome, h1, hd, hcd],
          by simp [calculate_endpoint_outcome, h1, hd, hcd]⟩
    · right
      exact ⟨d1, slot_date_mem_all et et.death d1 (by simp [EventTracking.slots]) hd,
        by simp [calculate_endpoint_outcome, h1, hd],
        by simp [calculate_endpoint_outcome, h1, hd]⟩
  by_cases h2 : endpoint = "mace"
  · rcases hm : min_date (mace_dates et) with _ | d
    · left
      constructor <;> simp [calculate_endpoint_outcome, h1, h2, hm]
    · right
      exact ⟨d, mem_all_of_mem_mace et d (min_date_mem _ d hm),
        by simp [calculate_endpoint_outcome, h1, h2, hm],
        by simp [calculate_endpoint_outcome, h1, h2, hm]⟩
  by_cases h3 : endpoint = "mi"
  · rcases hd : et.nonfatal_mi.date with _ | d
    · left
      constructor <;> simp [calculate_endpoint_outcome, h1, h2, h3, hd]
    · right
      exact ⟨d, slot_date_mem_all et et.nonfatal_mi d (by simp [EventTracking.slots]) hd,
        by simp [calculate_endpoint_outcome, h1, h2, h3, hd],
        by simp [calculate_endpoint_outcome, h1, h2, h3, hd]⟩
  by_cases h4 : endpoint = "angina"
  · rcases hd : et.angina.date with _ | d
    · left
      constructor <;> simp [calculate_endpoint_outcome, h1, h2, h3, h4, hd]
    · right
      exact ⟨d, slot_date_mem_all et et.angina d (by simp [EventTracking.slots]) hd,
        by simp [calculate_endpoint_outcome, h1, h2, h3, h4, hd],
        by simp [calculate_endpoint_outcome, h1, h2, h3, h4, hd]⟩
  by_cases h5 : endpoint = "heart_failure"
  · rcases hd : et.heart_failure.date with _ | d
    · left
      constructor <;> simp [calculate_endpoint_outcome, h1, h2, h3, h4, h5, hd]
    · right
      exact ⟨d, slot_date_mem_all et et.heart_failure d (by simp [EventTracking.slots]) hd,
        by simp [calculate_endpoint_outcome, h1, h2, h3, h4, h5, hd],
        by simp [calculate_endpoint_outcome, h1, h2, h3, h4, h5, hd]⟩
  by_cases h6 : endpoint = "revascularization"
  · rcases hd : et.target_vessel_revascularization.date with _ | d
    · left
      constructor <;> simp [calculate_endpoint_outcome, h1, h2, h3, h4, h5, h6, hd]
    · right
      exact ⟨d, slot_date_mem_all et et.target_vessel_revascularization d
          (by simp [EventTracking.slots]) hd,
        by simp [calculate_endpoint_outcome, h1, h2, h3, h4, h5, h6, hd],
        by simp [calculate_endpoint_outcome, h1, h2, h3, h4, h5, h6, hd]⟩
  by_cases h7 : endpoint = "hospitalization"
  · rcases hd : et.cardiac_hospitalization.date with _ | d
    · left
      constructor <;> simp [calculate_endpoint_outcome, h1, h2, h3, h4, h5, h6, h7, hd]
    · right
      exact ⟨d, slot_date_mem_all et et.cardiac_hospitalization d
          (by simp [EventTracking.slots]) hd,
        by simp [calculate_endpoint_outcome, h1, h2, h3, h4, h5, h6, h7, hd],
        by simp [calculate_endpoint_outcome, h1, h2, h3, h4, h5, h6, h7, hd]⟩
  by_cases h8 : endpoint = "any_event"
  · rcases hm : min_date (all_event_dates et) with _ | d
    · left
      constructor <;> simp [calculate_endpoint_outcome, h1, h2, h3, h4, h5, h6, h7, h8, hm]
    · right
      exact ⟨d, min_date_mem _ d hm,
        by simp [calculate_endpoint_outcome, h1, h2, h3, h4, h5, h6, h7, h8, hm],
        by simp [calculate_endpoint_outcome, h1, h2, h3, h4, h5, h6, h7, h8, hm]⟩
  · left
    constructor <;> simp [calculate_endpoint_outcome, h1, h2, h3, h4, h5, h6, h7, h8]

/-- Projection of the survival-analysis fields of the output record. -/
theorem process_followup_outcome_proj (endpoint : String) (pr : LongitudinalPatientRecord) :
    (process_followup endpoint pr).event_occurred
        = (calculate_endpoint_outcome endpoint (fold_time_points pr).2.1
            pr.enrollment_date pr.latest_followup_date).1
    ∧ (process_followup endpoint pr).survival_time_days
        = (calculate_endpoint_outcome endpoint (fold_time_points pr).2.1
            pr.enrollment_date pr.latest_followup_date).2.1 :=
  ⟨rfl, rfl⟩

/-- Constituent tracking slots of each endpoint selector following the
wording of the spec: a canonical category covers both its decoding
variants (refinement-side definition, to be compared with the behaviour
of `calculate_endpoint_outcome`). -/
def spec_constituent_slots (endpoint : String) (et : EventTracking) : List EventSlot :=
  if endpoint = "death" then [et.death, et.cardiac_death]
  else if endpoint = "mace" then
    [et.death, et.cardiac_death, et.mi, et.nonfatal_mi, et.revascularization,
     et.target_vessel_revascularization]
  else if endpoint = "mi" then [et.mi, et.nonfatal_mi]
  else if endpoint = "angina" then [et.angina]
  else if endpoint = "heart_failure" then [et.heart_failure]
  else if endpoint = "revascularization" then
    [et.revascularization, et.target_vessel_revascularization]
  else if endpoint = "hospitalization" then [et.hospitalization, et.cardiac_hospitalization]
  else if endpoint = "any_event" then et.slots
  else []

/-- When every constituent slot of the selected endpoint is empty, the
outcome is censored: not occurred, and the survival time is the latest
follow-up minus enrollment, or the 0 default. -/
theorem calc_censored (endpoint : String) (et : EventTracking) (e : PDate)
    (latest : Option PDate)
    (h : ∀ s ∈ spec_constituent_slots endpoint et, s.date = none) :
    (calculate_endpoint_outcome endpoint et e latest).1 = false
    ∧ (calculate_endpoint_outcome endpoint et e latest).2.1
        = (match latest with | some l => l - e | none => 0) := by
  by_cases h1 : endpoint = "death"
  · have hd := h et.death (by simp [spec_constituent_slots, h1])
    have hcd := h et.cardiac_death (by simp [spec_constituent_slots, h1])
    constructor <;> simp [calculate_endpoint_outcome, h1, hd, hcd]
  by_cases h2 : endpoint = "mace"
  · have hd := h et.death (by simp [spec_constituent_slots, h1, h2])
    have hcd := h et.cardiac_death (by simp [spec_constituent_slots, h1, h2])
    have hnm := h et.nonfatal_mi (by simp [spec_constituent_slots, h1, h2])
    have htv := h et.target_vessel_revascularization (by simp [spec_constituent_slots, h1, h2])
    constructor <;> simp [calculate_endpoint_outcome, mace_dates, min_date, h1, h2, hd, hcd, hnm, htv]
  by_cases h3 : endpoint = "mi"
  · have hnm := h et.nonfatal_mi (by simp [spec_constituent_slots, h1, h2, h3])
    constructor <;> simp [calculate_endpoint_outcome, h1, h2, h3, hnm]
  by_cases h4 : endpoint = "angina"
  · have ha := h et.angina (by simp [spec_constituent_slots, h1, h2, h3, h4])
    constructor <;> simp [calculate_endpoint_outcome, h1, h2, h3, h4, ha]
  by_cases h5 : endpoint = "heart_failure"
  · have hh := h et.heart_failure (by simp [spec_constituent_slots, h1, h2, h3, h4, h5])
    constructor <;> simp [calculate_endpoint_outcome, h1, h2, h3, h4, h5, hh]
  by_cases h6 : endpoint = "revascularization"
  · have htv := h et.target_vessel_revascularization
      (by simp [spec_constituent_slots, h1, h2, h3, h4, h5, h6])
    constructor <;> simp [calculate_endpoint_outcome, h1, h2, h3, h4, h5, h6, htv]
  by_cases h7 : endpoint = "hospitalization"
  · have hch := h et.cardiac_hospitalization
      (by simp [spec_constituent_slots, h1, h2, h3, h4, h5, h6, h7])
    constructor <;> simp [calculate_endpoint_outcome, h1, h2, h3, h4, h5, h6, h7, hch]
  by_cases h8 : endpoint = "any_event"
  · have hall : ∀ s ∈ et.slots, s.date = none := by
      intro s hs
      exact h s (by simp only [spec_constituent_slots, h1, h2, h3, h4, h5, h6, h7, h8,
        if_false, if_true, if_neg, reduceIte]; exact hs)
    have hd := hall et.death (by simp [EventTracking.slots])
    have hcd := hall et.cardiac_death (by simp [EventTracking.slots])
    have hmi := hall et.mi (by simp [EventTracking.slots])
    have hnm := hall et.nonfatal_mi (by simp [EventTracking.slots])
    have ha := hall et.angina (by simp [EventTracking.slots])
    have hh := hall et.heart_failure (by simp [EventTracking.slots])
    have hr := hall et.revascularization (by simp [EventTracking.slots])
    have htv := hall et.target_vessel_revascularization (by simp [EventTracking.slots])
    have hho := hall et.hospitalization (by simp [EventTracking.slots])
    have hch := hall et.cardiac_hospitalization (by simp [EventTracking.slots])
    constructor <;>
      simp [calculate_endpoint_outcome, all_event_dates, EventTracking.slots, min_date,
        h1, h2, h3, h4, h5, h6, h7, h8, hd, hcd, hmi, hnm, ha, hh, hr, htv, hho, hch]
  · constructor <;> simp [calculate_endpoint_outcome, h1, h2, h3, h4, h5, h6, h7, h8]

/-! ### C5: censoring when no constituent category occurred -/

/-- C5: for every patient record and endpoint selection, if none of the
constituent categories of the endpoint has a recorded occurrence, then
event_occurred is false and the survival time is the latest follow-up
date minus the enrollment date, or 0 when the latest follow-up date is
unknown. -/
theorem c5_censored_survival (endpoint : String) (pr : LongitudinalPatientRecord)
    (h : ∀ s ∈ spec_constituent_slots endpoint (fold_time_points pr).2.1, s.date = none) :
    (process_followup endpoint pr).event_occurred = false
    ∧ (process_followup endpoint pr).survival_time_days
        = (match pr.latest_followup_date with
           | some l => l - pr.enrollment_date
           | none => 0) := by
  obtain ⟨hocc, hsurv⟩ := process_followup_outcome_proj endpoint pr
  rw [hocc, hsurv]
  exact calc_censored endpoint _ _ _ h

/-- Witness record for C5: a bypass procedure happens (so an event is
extracted and becomes the overall first event) but no mace constituent
category occurs. -/
def c5_wrecord : LongitudinalPatientRecord :=
  { patient_id := "W5", enrollment_date := 0,
    time_points := [{ time_point := "m6", months := 6, visit_date := some 200,
                      coronary_bypass := some "1", bypass_date := some 150 }],
    latest_followup_date := some 200, latest_followup_months := some 6,
    days_to_latest_followup := some 200 }

/-- Witness for C5 at the concrete record `c5_wrecord` with endpoint mace. -/
theorem c5_censored_survival_witness :
    (∀ s ∈ spec_constituent_slots "mace" (fold_time_points c5_wrecord).2.1, s.date = none)
    ∧ ((process_followup "mace" c5_wrecord).event_occurred = false
      ∧ (process_followup "mace" c5_wrecord).survival_time_days
          = (match c5_wrecord.latest_followup_date with
             | some l => l - c5_wrecord.enrollment_date
             | none => 0)) :=
  ⟨by decide, c5_censored_survival "mace" c5_wrecord (by decide)⟩

/-! ### C3 (amended): sign of the survival time under date order -/

/-- C3 as amended: the survival time is nonnegative whenever no recorded
event date and no latest follow-up date precede the enrollment date (it
defaults to 0 when the dates are unknown); without that ordering
hypothesis it can be negative, as events dated before enrollment are not
filtered. -/
theorem c3_amended_nonneg (endpoint : String) (pr : LongitudinalPatientRecord)
    (hev : ∀ d ∈ all_event_dates (fold_time_points pr).2.1, pr.enrollment_date ≤ d)
    (hl : ∀ l ∈ pr.latest_followup_date, pr.enrollment_date ≤ l) :
    0 ≤ (process_followup endpoint pr).survival_time_days := by
  obtain ⟨_, hsurv⟩ := process_followup_outcome_proj endpoint pr
  rw [hsurv]
  rcases calculate_endpoint_cases endpoint (fold_time_points pr).2.1
      pr.enrollment_date pr.latest_followup_date with ⟨_, hs⟩ | ⟨d, hd, _, hs⟩
  · rw [hs]
    cases hll : pr.latest_followup_date with
    | none => simp
    | some l =>
      have h2 := hl l (by simp [hll])
      exact sub_nonneg.mpr h2
  · rw [hs]
    exact sub_nonneg.mpr (hev d hd)

/-- Witness record for the amended C3: a death on day 80 after an
enrollment on day 0. -/
def c3_wrecord : LongitudinalPatientRecord :=
  { patient_id := "W3", enrollment_date := 0,
    time_points := [{ time_point := "m3", months := 3, death_date := some 80 }],
    latest_followup_date := some 90, latest_followup_months := some 3,
    days_to_latest_followup := some 90 }

/-- Witness for the amended C3: all dates at or after enrollment give a
nonnegative survival time. -/
theorem c3_amended_nonneg_witness :
    (∀ d ∈ all_event_dates (fold_time_points c3_wrecord).2.1, c3_wrecord.enrollment_date ≤ d)
    ∧ (∀ l ∈ c3_wrecord.latest_followup_date, c3_wrecord.enrollment_date ≤ l)
    ∧ 0 ≤ (process_followup "death" c3_wrecord).survival_time_days :=
  ⟨by decide, by decide, c3_amended_nonneg "death" c3_wrecord (by decide) (by decide)⟩

/-! ### C6: latest follow-up is a descending month-index scan -/

/-- C6: when some time point has a visit date, the latest-follow-up
fields come from a time point with a non-null visit date such that every
time point of a strictly higher month offset has a null visit date: the
scan walks months downward and stops at the first non-null visit date,
regardless of calendar dates carried by lower-month time points. -/
theorem c6_latest_followup_scan (record : LongitudinalPatientRecord)
    (h : ∃ tp0 ∈ record.time_points, tp0.visit_date.isSome) :
    ∃ tp ∈ record.time_points, ∃ vd,
      tp.visit_date = some vd
      ∧ (calculate_latest_followup record).latest_followup_date = some vd
      ∧ (calculate_latest_followup record).latest_followup_months = some tp.months
      ∧ (calculate_latest_followup record).days_to_latest_followup
          = some (vd - record.enrollment_date)
      ∧ ∀ tp2 ∈ record.time_points, tp.months < tp2.months → tp2.visit_date = none := by
  classical
  obtain ⟨tp0, htp0, hvd0⟩ := h
  have hne : record.time_points ≠ [] := by
    intro he
    rw [he] at htp0
    cases htp0
  have hperm : List.Perm
      (record.time_points.insertionSort (fun a b => a.months ≤ b.months))
      record.time_points := List.perm_insertionSort _ _
  have hmem0 : tp0 ∈ (record.time_points.insertionSort (fun a b => a.months ≤ b.months)).reverse := by
    rw [List.mem_reverse]
    exact hperm.mem_iff.2 htp0
  have hfindsome :
      ((record.time_points.insertionSort (fun a b => a.months ≤ b.months)).reverse.find?
        (fun tp => tp.visit_date.isSome)).isSome :=
    List.find?_isSome.2 ⟨tp0, hmem0, hvd0⟩
  obtain ⟨tp, hfind⟩ := Option.isSome_iff_exists.1 hfindsome
  obtain ⟨hptp, as, bs, hdecomp, hpre⟩ := List.find?_eq_some.1 hfind
  obtain ⟨vd, hvd⟩ := Option.isSome_iff_exists.1 hptp
  have htpmem : tp ∈ record.time_points := by
    refine hperm.mem_iff.1 ?_
    rw [← List.mem_reverse, hdecomp]
    simp
  have hcalc : (calculate_latest_followup record).latest_followup_date = tp.visit_date
      ∧ (calculate_latest_followup record).latest_followup_months = some tp.months
      ∧ (calculate_latest_followup record).days_to_latest_followup
          = tp.visit_date.map (fun x => x - record.enrollment_date) := by
    unfold calculate_latest_followup
    rw [if_neg (by simpa using hne)]
    simp [hfind]
  have hsortdecomp : record.time_points.insertionSort (fun a b => a.months ≤ b.months)
      = bs.reverse ++ [tp] ++ as.reverse := by
    have h1 := congrArg List.reverse hdecomp
    rw [List.reverse_reverse] at h1
    rw [h1]
    simp [List.reverse_append]
  have hsorted : List.Sorted (fun a b : TimePointData => a.months ≤ b.months)
      (record.time_points.insertionSort (fun a b => a.months ≤ b.months)) := by
    haveI : IsTotal TimePointData (fun a b => a.months ≤ b.months) :=
      ⟨fun a b => Int.le_total a.months b.months⟩
    haveI : IsTrans TimePointData (fun a b => a.months ≤ b.months) :=
      ⟨fun _ _ _ hab hbc => le_trans hab hbc⟩
    exact List.sorted_insertionSort _ _
  refine ⟨tp, htpmem, vd, hvd, ?_, hcalc.2.1, ?_, ?_⟩
  · rw [hcalc.1, hvd]
  · rw [hcalc.2.2, hvd]
    rfl
  · intro tp2 htp2 hlt
    have htp2s : tp2 ∈ bs.reverse ++ [tp] ++ as.reverse := by
      rw [← hsortdecomp]
      exact hperm.mem_iff.2 htp2
    rw [hsortdecomp] at hsorted
    rw [List.append_assoc] at hsorted htp2s
    obtain ⟨_, _, hcross⟩ := List.pairwise_append.1 hsorted
    rcases List.mem_append.1 htp2s with h2 | h2
    · exact absurd (hcross tp2 h2 tp (by simp)) (not_le.2 hlt)
    · rcases List.mem_append.1 h2 with h2 | h2
      · rw [List.mem_singleton.1 h2] at hlt
        exact absurd hlt (lt_irrefl _)
      · have := hpre tp2 (List.mem_reverse.1 h2)
        simpa using this

/-- Witness record for C6: the month-12 point has no visit date, the
month-6 point has one, and the month-3 point carries a later calendar
date; the month-6 observation must be reported. -/
def c6_wrecord : LongitudinalPatientRecord :=
  { patient_id := "W6", enrollment_date := 10,
    time_points := [{ time_point := "m12", months := 12 },
                    { time_point := "m6", months := 6, visit_date := some 150 },
                    { time_point := "m3", months := 3, visit_date := some 999 }] }

/-- Witness for C6 at `c6_wrecord`: the theorem applies, and the scan
indeed reports the month-6 visit date 150, not the later date 999. -/
theorem c6_latest_followup_scan_witness :
    (∃ tp0 ∈ c6_wrecord.time_points, tp0.visit_date.isSome)
    ∧ (∃ tp ∈ c6_wrecord.time_points, ∃ vd,
        tp.visit_date = some vd
        ∧ (calculate_latest_followup c6_wrecord).latest_followup_date = some vd
        ∧ (calculate_latest_followup c6_wrecord).latest_followup_months = some tp.months
        ∧ (calculate_latest_followup c6_wrecord).days_to_latest_followup
            = some (vd - c6_wrecord.enrollment_date)
        ∧ ∀ tp2 ∈ c6_wrecord.time_points, tp.months < tp2.months → tp2.visit_date = none)
    ∧ (calculate_latest_followup c6_wrecord).latest_followup_date = some 150
    ∧ (calculate_latest_followup c6_wrecord).latest_followup_months = some 6
    ∧ (calculate_latest_followup c6_wrecord).days_to_latest_followup = some 140 :=
  ⟨⟨{ time_point := "m6", months := 6, visit_date := some 150 }, by decide, by decide⟩,
    c6_latest_followup_scan c6_wrecord
      ⟨{ time_point := "m6", months := 6, visit_date := some 150 }, by decide, by decide⟩,
    by decide, by decide, by decide⟩

/-! ### C8: per-subject failure isolation -/

/-- The batch loop accumulates exactly the successful results, in order. -/
theorem process_batch_eq_filterMap
    (process : LongitudinalPatientRecord → Except String LongitudinalFollowupRecord) :
    ∀ (l : List LongitudinalPatientRecord) (acc : List LongitudinalFollowupRecord),
      l.foldl
        (fun followup_records pr =>
          match process pr with
          | .ok record => followup_records ++ [record]
          | .error _ => followup_records) acc
      = acc ++ l.filterMap (fun r => (process r).toOption)
  | [], acc => by simp
  | pr :: rest, acc => by
    cases hf : process pr with
    | ok record =>
      simp only [List.foldl_cons, List.filterMap_cons, hf, Except.toOption,
        process_batch_eq_filterMap process rest]
      simp
    | error e =>
      simp only [List.foldl_cons, List.filterMap_cons, hf, Except.toOption,
        process_batch_eq_filterMap process rest]

/-- The import loop accumulates exactly the created records, in order. -/
theorem import_loop_eq_filterMap :
    ∀ (l : List PatientInput) (acc : List LongitudinalPatientRecord),
      l.foldl
        (fun acc p =>
          match create_longitudinal_record p.patient_id p.baseline_enrollment p.sheets with
          | some record => acc ++ [record]
          | none => acc) acc
      = acc ++ l.filterMap
          (fun p => create_longitudinal_record p.patient_id p.baseline_enrollment p.sheets)
  | [], acc => by simp
  | p :: rest, acc => by
    cases hc : create_longitudinal_record p.patient_id p.baseline_enrollment p.sheets with
    | some record =>
      simp only [List.foldl_cons, List.filterMap_cons, hc, import_loop_eq_filterMap rest]
      simp
    | none =>
      simp only [List.foldl_cons, List.filterMap_cons, hc, import_loop_eq_filterMap rest]

/-- C8: one subject whose processing raises is dropped while the rest of
the batch is still processed in order, and one subject whose enrollment
date resolves neither from the baseline sheet nor from any time-point
row is dropped by the importer while the rest are still imported; no
single malformed subject aborts a batch. -/
theorem c8_failure_isolation
    (process : LongitudinalPatientRecord → Except String LongitudinalFollowupRecord)
    (xs ys : List LongitudinalPatientRecord) (bad : LongitudinalPatientRecord)
    (err : String) (hbad : process bad = .error err)
    (p : PatientInput) (us vs : List PatientInput)
    (hp : (collect_time_points p.baseline_enrollment p.sheets).1 = none) :
    process_batch process (xs ++ bad :: ys)
      = process_batch process xs ++ process_batch process ys
    ∧ create_longitudinal_record p.patient_id p.baseline_enrollment p.sheets = none
    ∧ import_longitudinal_data (us ++ p :: vs)
      = import_longitudinal_data us ++ import_longitudinal_data vs := by
  have hcreate : create_longitudinal_record p.patient_id p.baseline_enrollment p.sheets = none := by
    unfold create_longitudinal_record
    simp [hp]
  refine ⟨?_, hcreate, ?_⟩
  · unfold process_batch
    rw [process_batch_eq_filterMap, process_batch_eq_filterMap, process_batch_eq_filterMap]
    simp [List.filterMap_append, List.filterMap_cons, hbad, Except.toOption]
  · unfold import_longitudinal_data
    rw [import_loop_eq_filterMap, import_loop_eq_filterMap, import_loop_eq_filterMap]
    simp [List.filterMap_append, List.filterMap_cons, hcreate]

/-- Witness subjects for C8. -/
def c8_good : LongitudinalPatientRecord := { patient_id := "G", enrollment_date := 0 }

/-- Witness failing subject for C8. -/
def c8_bad : LongitudinalPatientRecord := { patient_id := "B", enrollment_date := 0 }

/-- Witness processing function for C8: raises on subject B. -/
def c8_process (r : LongitudinalPatientRecord) : Except String LongitudinalFollowupRecord :=
  if r.patient_id = "B" then .error "boom" else .ok (process_followup "death" r)

/-- Witness import input for C8: no baseline enrollment and no sheets. -/
def c8_patient : PatientInput := { patient_id := "P", baseline_enrollment := none, sheets := [] }

/-- Witness for C8 at concrete batch and import inputs. -/
theorem c8_failure_isolation_witness :
    c8_process c8_bad = .error "boom"
    ∧ (collect_time_points c8_patient.baseline_enrollment c8_patient.sheets).1 = none
    ∧ (process_batch c8_process ([c8_good] ++ c8_bad :: [c8_good])
        = process_batch c8_process [c8_good] ++ process_batch c8_process [c8_good]
      ∧ create_longitudinal_record c8_patient.patient_id c8_patient.baseline_enrollment
          c8_patient.sheets = none
      ∧ import_longitudinal_data ([] ++ c8_patient :: [])
        = import_longitudinal_data [] ++ import_longitudinal_data []) :=
  ⟨rfl, by decide,
    c8_failure_isolation c8_process [c8_good] [c8_good] c8_bad "boom" rfl
      c8_patient [] [] (by decide)⟩

/-! ### C9: the date normalizer never raises -/

/-- The format loop is total when `strptime` only raises ValueError. -/
theorem try_date_formats_total (strptime : String → String → Except PyErr PDate)
    (value : String)
    (hs : ∀ fmt e, strptime value fmt = .error e → e = PyErr.valueError) :
    ∀ fmts : List String, ∃ r, try_date_formats strptime value fmts = .ok r
  | [] => ⟨none, rfl⟩
  | fmt :: rest => by
    unfold try_date_formats
    cases hsp : strptime value fmt with
    | ok d => exact ⟨some d, rfl⟩
    | error e =>
      have he := hs fmt e hsp
      subst he
      exact try_date_formats_total strptime value hs rest

/-- C9: for every input value (missing, NaN, date, datetime, string,
number, or anything else), the date normalizer returns a parsed date or
the absent value and never lets an exception escape, given that the
library primitives raise only the caught exception classes (strptime
raises only ValueError; integer conversion and date arithmetic raise
only ValueError or OverflowError). -/
theorem c9_parse_date_never_raises (strptime : String → String → Except PyErr PDate)
    (excel_date : Int → Except PyErr PDate)
    (hs : ∀ s fmt e, strptime s fmt = .error e → e = PyErr.valueError)
    (he : ∀ n, excel_date n ≠ .error .other)
    (v : PyValue) (hv : v.wf) :
    ∃ r : Option PDate, parse_date strptime excel_date v = .ok r := by
  cases v with
  | vNone => exact ⟨none, rfl⟩
  | vNaN => exact ⟨none, rfl⟩
  | vDate d => exact ⟨some d, rfl⟩
  | vDateTime d => exact ⟨some d, rfl⟩
  | vStr s =>
    unfold parse_date
    by_cases hempty : py_strip s = ""
    · exact ⟨none, by simp [hempty]⟩
    · simp only [hempty, if_false, reduceIte]
      exact try_date_formats_total strptime (py_strip s) (fun fmt e h => hs _ fmt e h) date_formats
  | vNum toInt =>
    cases toInt with
    | ok n =>
      unfold parse_date
      show ∃ r, (match excel_date (n - 2) with
        | .ok d => Except.ok (some d)
        | .error .valueError => Except.ok none
        | .error .overflowError => Except.ok none
        | .error .other => Except.error PyErr.other) = .ok r
      cases hex : excel_date (n - 2) with
      | ok d => exact ⟨some d, rfl⟩
      | error e =>
        cases e with
        | valueError => exact ⟨none, rfl⟩
        | overflowError => exact ⟨none, rfl⟩
        | other => exact absurd hex (he (n - 2))
    | error e =>
      cases e with
      | valueError => exact ⟨none, rfl⟩
      | overflowError => exact ⟨none, rfl⟩
      | other => exact absurd rfl hv
  | vOther => exact ⟨none, rfl⟩

/-- Witness strptime for C9: always raises ValueError. -/
def c9_strptime (value fmt : String) : Except PyErr PDate := .error .valueError

/-- Witness date arithmetic for C9: succeeds, anchored at the ordinal of
1900-01-01. -/
def c9_excel (k : Int) : Except PyErr PDate := .ok (693596 + k)

/-- Witness for C9 on a concrete string value. -/
theorem c9_parse_date_never_raises_witness :
    (∀ s fmt e, c9_strptime s fmt = .error e → e = PyErr.valueError)
    ∧ (∀ n, c9_excel n ≠ .error .other)
    ∧ (PyValue.vStr " 2020-01-01 ").wf
    ∧ ∃ r, parse_date c9_strptime c9_excel (.vStr " 2020-01-01 ") = .ok r :=
  ⟨fun _ _ e h => by injection h with h2; exact h2.symm,
   fun n h => by simp [c9_excel] at h,
   trivial,
   c9_parse_date_never_raises c9_strptime c9_excel
     (fun _ _ e h => by injection h with h2; exact h2.symm)
     (fun n h => by simp [c9_excel] at h)
     (.vStr " 2020-01-01 ") trivial⟩

/-! ### C10: the overall first event bounds the per-category firsts -/

/-- The first-event date bounds every date recorded in a slot. -/
def dominates (fe : FirstEventState) (s : EventSlot) : Prop :=
  ∀ d, s.date = some d → ∃ f, fe.first_event_date = some f ∧ f ≤ d

/-- Invariant of the event fold: the overall first-event date is a lower
bound of every recorded slot date. -/
def tracking_dominated (st : FirstEventState × EventTracking) : Prop :=
  ∀ s ∈ st.2.slots, dominates st.1 s

set_option maxHeartbeats 1000000 in
/-- A slot of an updated tracking is the new slot or an original one. -/
theorem slots_set_subset (et : EventTracking) (key : String) (slot : EventSlot) :
    ∀ s ∈ (et.set key slot).slots, s = slot ∨ s ∈ et.slots := by
  intro s hs
  unfold EventTracking.set at hs
  repeat' split at hs
  all_goals simp [EventTracking.slots] at hs ⊢
  all_goals tauto

/-- One step of the event fold preserves the domination invariant. -/
theorem process_event_preserves (e : PDate) (tp : TimePointData)
    (st : FirstEventState × EventTracking) (ev : String × PDate)
    (h : tracking_dominated st) : tracking_dominated (process_event e tp st ev) := by
  unfold process_event
  by_cases hty : ev.1 = ""
  · simp only [hty, if_true, reduceIte]
    exact h
  · simp only [hty, if_false, reduceIte]
    -- the new overall first event bounds the event date and the old bound
    have hfe : ∃ f,
        (if (match st.1.first_event_date with
             | none => true
             | some cur => decide (ev.2 < cur)) = true then
          ({ first_event_type := some ev.1, first_event_time_point := some tp.time_point,
             first_event_date := some ev.2, first_event_months := some tp.months }
            : FirstEventState)
        else st.1).first_event_date = some f
        ∧ f ≤ ev.2 ∧ (∀ cur, st.1.first_event_date = some cur → f ≤ cur) := by
      cases hcur : st.1.first_event_date with
      | none =>
        refine ⟨ev.2, ?_, le_refl _, ?_⟩
        · simp [hcur]
        · intro cur hc
          cases hc
      | some cur =>
        by_cases hlt : ev.2 < cur
        · refine ⟨ev.2, ?_, le_refl _, ?_⟩
          · simp [hcur, hlt]
          · intro cur2 hc
            cases hc
            exact le_of_lt hlt
        · refine ⟨cur, ?_, not_lt.1 hlt, ?_⟩
          · simp [hcur, hlt]
          · intro cur2 hc
            cases hc
            exact le_refl _
    obtain ⟨f, hf, hfev, hfold⟩ := hfe
    intro s hs
    intro d hd
    refine ⟨f, hf, ?_⟩
    -- identify where the slot came from
    rcases hget : st.2.get? ev.1 with _ | slot
    · rw [hget] at hs
      have hold := h s hs d hd
      obtain ⟨f0, hf0, hf0d⟩ := hold
      exact le_trans (hfold f0 hf0) hf0d
    · rw [hget] at hs
      by_cases hnone : slot.date = none
      · simp only [hnone, if_true, reduceIte] at hs
        rcases slots_set_subset st.2 ev.1 _ s hs with hnew | hmem
        · rw [hnew] at hd
          simp at hd
          exact hd ▸ hfev
        · obtain ⟨f0, hf0, hf0d⟩ := h s hmem d hd
          exact le_trans (hfold f0 hf0) hf0d
      · simp only [hnone, if_false, reduceIte] at hs
        obtain ⟨f0, hf0, hf0d⟩ := h s hs d hd
        exact le_trans (hfold f0 hf0) hf0d

/-- Folding a whole event list preserves the domination invariant. -/
theorem foldl_events_preserves (e : PDate) (tp : TimePointData) :
    ∀ (evs : List (String × PDate)) (st : FirstEventState × EventTracking),
      tracking_dominated st → tracking_dominated (evs.foldl (process_event e tp) st)
  | [], _, h => h
  | ev :: rest, st, h =>
    foldl_events_preserves e tp rest (process_event e tp st ev) (process_event_preserves e tp st ev h)

/-- The outer time-point fold preserves the domination invariant. -/
theorem foldl_triple_preserves (e : PDate) :
    ∀ (l : List TimePointData) (acc : FirstEventState × EventTracking × CoronaryTracking),
      tracking_dominated (acc.1, acc.2.1) →
      tracking_dominated
        ((l.foldl (fun acc tp =>
            let st := (identify_all_events tp).foldl (process_event e tp) (acc.1, acc.2.1)
            (st.1, st.2, track_coronary_procedures tp acc.2.2)) acc).1,
         (l.foldl (fun acc tp =>
            let st := (identify_all_events tp).foldl (process_event e tp) (acc.1, acc.2.1)
            (st.1, st.2, track_coronary_procedures tp acc.2.2)) acc).2.1)
  | [], _, h => h
  | tp :: rest, acc, h =>
    foldl_triple_preserves e rest _ (foldl_events_preserves e tp (identify_all_events tp) _ h)

/-- The fully folded tracking of a patient record is dominated by its
overall first event. -/
theorem fold_time_points_dominated (pr : LongitudinalPatientRecord) :
    tracking_dominated ((fold_time_points pr).1, (fold_time_points pr).2.1) := by
  have hinit : tracking_dominated
      (({} : FirstEventState), ({} : EventTracking)) := by
    intro s hs d hd
    simp [EventTracking.slots] at hs
    subst hs
    cases hd
  exact foldl_triple_preserves pr.enrollment_date
    (pr.time_points.insertionSort (fun a b => a.months ≤ b.months)) ({}, {}, {}) hinit

/-- A Python-or of two optional dates is one of them. -/
theorem pyOrDate_cases (a b : Option PDate) (d : PDate) (h : pyOrDate a b = some d) :
    a = some d ∨ b = some d := by
  unfold pyOrDate at h
  rcases ha : a with _ | x
  · rw [ha] at h
    right
    exact h
  · rw [ha] at h
    left
    exact h

/-- C10: whenever the overall first_event_date is non-null, it is less
than or equal to each non-null per-category first date among death, MI,
angina, heart failure, revascularization, and hospitalization, since the
overall first event is the running calendar minimum over all emitted
events and each per-category first is one of those events. -/
theorem c10_first_event_le (endpoint : String) (pr : LongitudinalPatientRecord) (fd : PDate)
    (h : (process_followup endpoint pr).first_event_date = some fd) :
    (∀ d, (process_followup endpoint pr).first_death_date = some d → fd ≤ d)
    ∧ (∀ d, (process_followup endpoint pr).first_mi_date = some d → fd ≤ d)
    ∧ (∀ d, (process_followup endpoint pr).first_angina_date = some d → fd ≤ d)
    ∧ (∀ d, (process_followup endpoint pr).first_heart_failure_date = some d → fd ≤ d)
    ∧ (∀ d, (process_followup endpoint pr).first_revascularization_date = some d → fd ≤ d)
    ∧ (∀ d, (process_followup endpoint pr).first_hospitalization_date = some d → fd ≤ d) := by
  have hdom := fold_time_points_dominated pr
  have hfe : (fold_time_points pr).1.first_event_date = some fd := h
  have key : ∀ s ∈ (fold_time_points pr).2.1.slots, ∀ d, s.date = some d → fd ≤ d := by
    intro s hs d hd
    obtain ⟨f, hf, hfd⟩ := hdom s hs d hd
    rw [hfe] at hf
    cases hf
    exact hfd
  have hslot : ∀ key : EventTracking → EventSlot,
      (∀ et : EventTracking, key et ∈ et.slots) →
      ∀ d, (key (fold_time_points pr).2.1).date = some d → fd ≤ d := by
    intro k hk d hd
    exact key _ (hk _) d hd
  refine ⟨?_, ?_, ?_, ?_, ?_, ?_⟩
  · intro d hd
    rcases pyOrDate_cases _ _ d hd with hc | hc
    · exact hslot (fun et => et.death) (fun et => by simp [EventTracking.slots]) d hc
    · exact hslot (fun et => et.cardiac_death) (fun et => by simp [EventTracking.slots]) d hc
  · intro d hd
    rcases pyOrDate_cases _ _ d hd with hc | hc
    · exact hslot (fun et => et.mi) (fun et => by simp [EventTracking.slots]) d hc
    · exact hslot (fun et => et.nonfatal_mi) (fun et => by simp [EventTracking.slots]) d hc
  · intro d hd
    exact hslot (fun et => et.angina) (fun et => by simp [EventTracking.slots]) d hd
  · intro d hd
    exact hslot (fun et => et.heart_failure) (fun et => by simp [EventTracking.slots]) d hd
  · intro d hd
    rcases pyOrDate_cases _ _ d hd with hc | hc
    · exact hslot (fun et => et.revascularization) (fun et => by simp [EventTracking.slots]) d hc
    · exact hslot (fun et => et.target_vessel_revascularization)
        (fun et => by simp [EventTracking.slots]) d hc
  · intro d hd
    rcases pyOrDate_cases _ _ d hd with hc | hc
    · exact hslot (fun et => et.hospitalization) (fun et => by simp [EventTracking.slots]) d hc
    · exact hslot (fun et => et.cardiac_hospitalization)
        (fun et => by simp [EventTracking.slots]) d hc

/-- Witness record for C10: an angina at day 120 (month 6) and an MI and
hospitalization at day 300 (month 12). -/
def c10_wrecord : LongitudinalPatientRecord :=
  { patient_id := "W10", enrollment_date := 0,
    time_points := [
      { time_point := "m6", months := 6, visit_date := some 120, event_types := ["angina"] },
      { time_point := "m12", months := 12, visit_date := some 300,
        event_types := ["mi", "hospitalization"] }],
    latest_followup_date := some 300, latest_followup_months := some 12,
    days_to_latest_followup := some 300 }

/-- Witness for C10 at `c10_wrecord`: the overall first event is the
day-120 angina and bounds the later per-category firsts. -/
theorem c10_first_event_le_witness :
    (process_followup "death" c10_wrecord).first_event_date = some 120
    ∧ (process_followup "death" c10_wrecord).first_mi_date = some 300
    ∧ ((∀ d, (process_followup "death" c10_wrecord).first_death_date = some d → (120 : PDate) ≤ d)
      ∧ (∀ d, (process_followup "death" c10_wrecord).first_mi_date = some d → (120 : PDate) ≤ d)
      ∧ (∀ d, (process_followup "death" c10_wrecord).first_angina_date = some d → (120 : PDate) ≤ d)
      ∧ (∀ d, (process_followup "death" c10_wrecord).first_heart_failure_date = some d → (120 : PDate) ≤ d)
      ∧ (∀ d, (process_followup "death" c10_wrecord).first_revascularization_date = some d → (120 : PDate) ≤ d)
      ∧ (∀ d, (process_followup "death" c10_wrecord).first_hospitalization_date = some d → (120 : PDate) ≤ d)) :=
  ⟨by decide, by decide, c10_first_event_le "death" c10_wrecord 120 (by decide)⟩

/-! ### C4: a death date short-circuits event extraction -/

/-- C4: for every time point observation whose death date is set, the
event extractor returns exactly one event, of category death, dated at
the death date, regardless of every other field value. -/
theorem c4_death_date_single_event (tp : TimePointData) (dd : PDate)
    (h : tp.death_date = some dd) :
    identify_all_events tp = [("death", dd)] := by
  unfold identify_all_events
  rw [h]

/-- Witness for C4 on a time point that also carries decoded events, a
cardiovascular flag, and procedure flags. -/
theorem c4_death_date_single_event_witness :
    ({ time_point := "m6", months := 6, visit_date := some 10, death_date := some 7,
       event_types := ["angina", "hospitalization"], cardiovascular_event := some "1",
       coronary_bypass := some "1", bypass_date := some 12,
       coronary_intervention := some "1", intervention_date := some 11 } :
        TimePointData).death_date = some 7
    ∧ identify_all_events
        { time_point := "m6", months := 6, visit_date := some 10, death_date := some 7,
          event_types := ["angina", "hospitalization"], cardiovascular_event := some "1",
          coronary_bypass := some "1", bypass_date := some 12,
          coronary_intervention := some "1", intervention_date := some 11 }
        = [("death", 7)] :=
  ⟨rfl, c4_death_date_single_event _ 7 rfl⟩

/-! ### C1: the mace endpoint and the decoded event-code path -/

/-- Failing input for C1: enrollment day 0; a single month-6 visit on
day 186 whose event column decoded to a myocardial infarction through
the decoded event-code list (code 2 maps to category mi). -/
def c1_record : LongitudinalPatientRecord :=
  { patient_id := "C1", enrollment_date := 0,
    time_points := [{ time_point := "m6", months := 6, visit_date := some 186,
                      event_types := ["mi"] }],
    latest_followup_date := some 186, latest_followup_months := some 6,
    days_to_latest_followup := some 186 }

/-- C1 (code bug): with endpoint selector mace, a myocardial infarction
recorded through the decoded event-code path (slot mi) is ignored by the
endpoint evaluator, which only consults the legacy slots; the very same
output record still reports the MI as its first MI occurrence, so
event_occurred is false although an MI first occurrence is present. -/
theorem c1_mace_ignores_decoded_mi :
    EVENT_TYPE_CODES "2" = some "mi"
    ∧ (process_followup "mace" c1_record).first_mi_date = some 186
    ∧ (process_followup "mace" c1_record).event_occurred = false
    ∧ (process_followup "mace" c1_record).survival_time_days = 186 := by
  decide

/-! ### C2: single-category endpoints and the decoded event-code path -/

/-- Failing input for C2: same shape as for C1, processed with the
single-category endpoint selector mi. -/
def c2_record : LongitudinalPatientRecord :=
  { patient_id := "C2", enrollment_date := 0,
    time_points := [{ time_point := "m6", months := 6, visit_date := some 186,
                      event_types := ["mi"] }],
    latest_followup_date := some 186, latest_followup_months := some 6,
    days_to_latest_followup := some 186 }

/-- C2 (code bug): with endpoint selector mi, the flattened output field
first_mi_date is non-null (the decoded path recorded an MI), yet
event_occurred is false because the evaluator only consults the legacy
nonfatal_mi slot; the endpoint date is therefore not the recorded first
MI date but the censoring time. -/
theorem c2_mi_endpoint_ignores_decoded_mi :
    (process_followup "mi" c2_record).first_mi_date = some 186
    ∧ (process_followup "mi" c2_record).event_occurred = false
    ∧ (process_followup "mi" c2_record).survival_time_days = 186 := by
  decide

/-! ### C3: sign of the survival time -/

/-- Counterexample input for C3: enrollment on day 100, a death recorded
on day 50 (events dated before enrollment are not filtered). -/
def c3_record : LongitudinalPatientRecord :=
  { patient_id := "C3", enrollment_date := 100,
    time_points := [{ time_point := "m6", months := 6, death_date := some 50 }] }

/-- Counterexample for C3 as stated: the endpoint occurred, enrollment
and endpoint dates are both known, yet survival_time_days is negative. -/
theorem c3_negative_survival :
    (process_followup "death" c3_record).event_occurred = true
    ∧ (process_followup "death" c3_record).first_death_date = some 50
    ∧ (process_followup "death" c3_record).survival_time_days = -50 := by
  decide

end Followup
